import Mathlib

/-!
Verification of the k6_express_sqlite CRUD service.

The development shallowly embeds the two Express routers of the repository
(the promise-based router in `routes/items.js` using `promisify`, called the
promise router below, and the callback-based router, called the callback
router), the busy-retry policy `retryOperation`, and the schema step of
`createDatabase` from `src/database.js`.

The `items` table is modelled as a list of rows kept in rowid (insertion)
order together with the AUTOINCREMENT counter; each SQL statement appearing
in the source is embedded as a Lean function over that state.  SQL `=`
against a NULL operand is never true, which the model keeps faithfully
(`sqlEqText`).
-/

namespace K6Sqlite

/-- A row of the `items` table: `id INTEGER PRIMARY KEY AUTOINCREMENT`,
`name TEXT NOT NULL`, `description TEXT` (nullable). -/
structure Item where
  id : Nat
  name : String
  description : Option String
deriving DecidableEq, Repr

/-- The state of the `items` table: rows in rowid (insertion) order, plus the
AUTOINCREMENT counter, which is strictly greater than every id ever used. -/
structure Db where
  items : List Item
  nextId : Nat
deriving DecidableEq, Repr

/-- Well-formedness of a reachable table state: every stored id is below the
AUTOINCREMENT counter. -/
def Db.wfb (db : Db) : Bool :=
  db.items.all fun it => it.id < db.nextId

/-- SQL equality on a nullable TEXT column: a comparison with NULL is never
true (three-valued logic, collapsed to Bool as a WHERE clause does). -/
def sqlEqText (a b : Option String) : Bool :=
  match a, b with
  | some x, some y => x == y
  | _, _ => false

/-- Embeds `SELECT * FROM items LIMIT ? OFFSET ?` under the rowid scan order
SQLite uses for this query. -/
def selectPage (db : Db) (limit offset : Nat) : List Item :=
  (db.items.drop offset).take limit

/-- Embeds `SELECT COUNT(*) AS count FROM items`. -/
def countItems (db : Db) : Nat :=
  db.items.length

/-- Embeds `SELECT * FROM items WHERE id = ?`. -/
def selectById (db : Db) (id : Nat) : Option Item :=
  db.items.find? fun it => it.id == id

/-- Embeds `INSERT INTO items (name, description) VALUES (?, ?)`, returning
the new state and `this.lastID`. -/
def insertItem (db : Db) (name : String) (desc : Option String) : Db × Nat :=
  (⟨db.items ++ [⟨db.nextId, name, desc⟩], db.nextId + 1⟩, db.nextId)

/-- Accumulator step realising `ORDER BY id DESC LIMIT 1`: keep the row with
the largest id seen so far. -/
def pickMaxId (acc : Option Item) (it : Item) : Option Item :=
  match acc with
  | none => some it
  | some a => if a.id < it.id then some it else some a

/-- Embeds the promise router's fetch-back query
`SELECT * FROM items WHERE name = ? AND description = ? ORDER BY id DESC LIMIT 1`.
Note `description = ?` with a NULL binding matches nothing (`sqlEqText`). -/
def selectLatestByNameDesc (db : Db) (name : String) (desc : Option String) :
    Option Item :=
  (db.items.filter fun it => it.name == name && sqlEqText it.description desc).foldl
    pickMaxId none

/-- Embeds `UPDATE items SET name = ?, description = ? WHERE id = ?`,
returning the new state and `this.changes`. -/
def updateById (db : Db) (id : Nat) (name : String) (desc : Option String) :
    Db × Nat :=
  (⟨db.items.map fun it => if it.id == id then ⟨it.id, name, desc⟩ else it,
     db.nextId⟩,
   db.items.countP fun it => it.id == id)

/-- Embeds `DELETE FROM items WHERE id = ?`, returning the new state and
`this.changes`. -/
def deleteById (db : Db) (id : Nat) : Db × Nat :=
  (⟨db.items.filter fun it => it.id != id, db.nextId⟩,
   db.items.countP fun it => it.id == id)

/-- Pagination metadata of the List response. -/
structure Pagination where
  totalItems : Nat
  totalPages : Nat
  currentPage : Nat
  pageSize : Nat
deriving DecidableEq, Repr

/-- JSON response bodies produced by the handlers.  `empty` models Express
`res.json(undefined)`, which sends no JSON value. -/
inductive Body where
  | item : Item → Body
  | itemList : List Item → Pagination → Body
  | message : String → Body
  | error : String → Body
  | empty : Body
deriving DecidableEq, Repr

/-- An HTTP response: status code and JSON body. -/
structure HttpResponse where
  status : Nat
  body : Body
deriving DecidableEq, Repr

/-- The SQL statements a handler can issue, recorded in issue order. -/
inductive SqlOp where
  | selectPageOp : Nat → Nat → SqlOp
  | countOp : SqlOp
  | selectIdOp : Nat → SqlOp
  | selectNameDescOp : String → Option String → SqlOp
  | insertOp : String → Option String → SqlOp
  | updateOp : Nat → String → Option String → SqlOp
  | deleteOp : Nat → SqlOp
deriving DecidableEq, Repr

/-- Outcome of one handled request: the response, the table state left
behind, and the SQL statements issued. -/
structure HResult where
  resp : HttpResponse
  db : Db
  ops : List SqlOp
deriving DecidableEq, Repr

/-- Models `parseInt(q) || d` for a query parameter: a missing or
non-numeric value (None) and the value 0 both fall back to the default. -/
def parseIntOr (q : Option Nat) (dflt : Nat) : Nat :=
  match q with
  | none => dflt
  | some 0 => dflt
  | some (n + 1) => n + 1

/-- Models the handlers' `if (!name)` guard on the request body: true for a
missing/null `name` and for the empty string. -/
def falsyName : Option String → Bool
  | none => true
  | some s => s == ""

/-- Models `Math.ceil(a / b)` for natural `a` and positive `b`, as computed
for `totalPages`. -/
def ceilDivJs (a b : Nat) : Nat :=
  (a + b - 1) / b

/-- The List computation shared verbatim by both routers: parse `page` and
`limit` with defaults 1 and 10, compute `offset = (page-1)*limit`, read the
page slice and the total count, and shape the pagination metadata. -/
def listItemsCore (db : Db) (pageQ limitQ : Option Nat) : HResult :=
  let page := parseIntOr pageQ 1
  let limit := parseIntOr limitQ 10
  let offset := (page - 1) * limit
  let rows := selectPage db limit offset
  let totalItems := countItems db
  let totalPages := ceilDivJs totalItems limit
  ⟨⟨200, .itemList rows ⟨totalItems, totalPages, page, limit⟩⟩, db,
    [.selectPageOp limit offset, .countOp]⟩

/-- The GetById computation shared verbatim by both routers. -/
def getByIdCore (db : Db) (id : Nat) : HResult :=
  match selectById db id with
  | none => ⟨⟨404, .error "Item not found"⟩, db, [.selectIdOp id]⟩
  | some row => ⟨⟨200, .item row⟩, db, [.selectIdOp id]⟩

/-- `getAllItems` of the promise router. -/
def p1_getAllItems (db : Db) (pageQ limitQ : Option Nat) : HResult :=
  listItemsCore db pageQ limitQ

/-- `getItemById` of the promise router. -/
def p1_getItemById (db : Db) (id : Nat) : HResult :=
  getByIdCore db id

/-- `createNewItem` of the promise router: validate `name`, INSERT, then
fetch the created row back by `name`/`description` with
`ORDER BY id DESC LIMIT 1` and send whatever that query returned. -/
def p1_createNewItem (db : Db) (name desc : Option String) : HResult :=
  if falsyName name then
    ⟨⟨400, .error "Name is required"⟩, db, []⟩
  else
    let nm := name.getD ""
    let db1 := (insertItem db nm desc).fst
    match selectLatestByNameDesc db1 nm desc with
    | some row =>
        ⟨⟨200, .item row⟩, db1, [.insertOp nm desc, .selectNameDescOp nm desc]⟩
    | none =>
        ⟨⟨200, .empty⟩, db1, [.insertOp nm desc, .selectNameDescOp nm desc]⟩

/-- `updateItem` of the promise router: validate `name`, UPDATE, then decide
NotFound by a follow-up SELECT of the id. -/
def p1_updateItem (db : Db) (id : Nat) (name desc : Option String) : HResult :=
  if falsyName name then
    ⟨⟨400, .error "Name is required"⟩, db, []⟩
  else
    let nm := name.getD ""
    let db1 := (updateById db id nm desc).fst
    match selectById db1 id with
    | none =>
        ⟨⟨404, .error "Item not found"⟩, db1,
          [.updateOp id nm desc, .selectIdOp id]⟩
    | some row =>
        ⟨⟨200, .item row⟩, db1, [.updateOp id nm desc, .selectIdOp id]⟩

/-- `deleteItem` of the promise router: DELETE, then SELECT the id again and
report 404 when the row is still present, success otherwise. -/
def p1_deleteItem (db : Db) (id : Nat) : HResult :=
  let db1 := (deleteById db id).fst
  match selectById db1 id with
  | some _ =>
      ⟨⟨404, .error "Item not found"⟩, db1, [.deleteOp id, .selectIdOp id]⟩
  | none =>
      ⟨⟨200, .message "Item deleted"⟩, db1, [.deleteOp id, .selectIdOp id]⟩

/-- The List handler of the callback router. -/
def p2_getAllItems (db : Db) (pageQ limitQ : Option Nat) : HResult :=
  listItemsCore db pageQ limitQ

/-- The GetById handler of the callback router. -/
def p2_getItemById (db : Db) (id : Nat) : HResult :=
  getByIdCore db id

/-- `performInsert` of the callback router: validate `name`, INSERT, then
fetch the created row back by `this.lastID`. -/
def p2_createNewItem (db : Db) (name desc : Option String) : HResult :=
  if falsyName name then
    ⟨⟨400, .error "Name is required"⟩, db, []⟩
  else
    let nm := name.getD ""
    let ins := insertItem db nm desc
    match selectById ins.fst ins.snd with
    | some row =>
        ⟨⟨200, .item row⟩, ins.fst, [.insertOp nm desc, .selectIdOp ins.snd]⟩
    | none =>
        ⟨⟨200, .empty⟩, ins.fst, [.insertOp nm desc, .selectIdOp ins.snd]⟩

/-- `performUpdate` of the callback router: validate `name`, UPDATE, report
404 when `this.changes === 0`, otherwise fetch and send the updated row. -/
def p2_updateItem (db : Db) (id : Nat) (name desc : Option String) : HResult :=
  if falsyName name then
    ⟨⟨400, .error "Name is required"⟩, db, []⟩
  else
    let nm := name.getD ""
    let upd := updateById db id nm desc
    if upd.snd == 0 then
      ⟨⟨404, .error "Item not found"⟩, upd.fst, [.updateOp id nm desc]⟩
    else
      match selectById upd.fst id with
      | some row =>
          ⟨⟨200, .item row⟩, upd.fst, [.updateOp id nm desc, .selectIdOp id]⟩
      | none =>
          ⟨⟨200, .empty⟩, upd.fst, [.updateOp id nm desc, .selectIdOp id]⟩

/-- `performDelete` of the callback router: DELETE, report 404 when
`this.changes === 0`, otherwise acknowledge the deletion. -/
def p2_deleteItem (db : Db) (id : Nat) : HResult :=
  let del := deleteById db id
  if del.snd == 0 then
    ⟨⟨404, .error "Item not found"⟩, del.fst, [.deleteOp id]⟩
  else
    ⟨⟨200, .message "Item deleted"⟩, del.fst, [.deleteOp id]⟩

/-- The five request shapes served by either router. -/
inductive Request where
  | list : Option Nat → Option Nat → Request
  | getOne : Nat → Request
  | create : Option String → Option String → Request
  | update : Nat → Option String → Option String → Request
  | remove : Nat → Request
deriving DecidableEq, Repr

/-- Dispatch of one request by the promise router. -/
def promiseStep (db : Db) : Request → HResult
  | .list p l => p1_getAllItems db p l
  | .getOne id => p1_getItemById db id
  | .create n d => p1_createNewItem db n d
  | .update id n d => p1_updateItem db id n d
  | .remove id => p1_deleteItem db id

/-- Dispatch of one request by the callback router. -/
def callbackStep (db : Db) : Request → HResult
  | .list p l => p2_getAllItems db p l
  | .getOne id => p2_getItemById db id
  | .create n d => p2_createNewItem db n d
  | .update id n d => p2_updateItem db id n d
  | .remove id => p2_deleteItem db id

/-- The requests on which the routers are known to diverge: Delete of an id
matching no row, and Create with a valid name and a NULL description. -/
def divergentReq (db : Db) : Request → Bool
  | .remove id => !(db.items.any fun it => it.id == id)
  | .create n d => !(falsyName n) && (d == none)
  | _ => false

/-- The items of a List response body. -/
def respItems : HttpResponse → List Item
  | ⟨_, .itemList l _⟩ => l
  | _ => []

/-- The pagination metadata of a List response body. -/
def respPagination : HttpResponse → Option Pagination
  | ⟨_, .itemList _ pg⟩ => some pg
  | _ => none

/-- A storage-engine error as node-sqlite3 delivers it: a code string and a
message.  The busy/locked condition carries the code SQLITE_BUSY. -/
structure DbErr where
  code : String
  msg : String
deriving DecidableEq, Repr

/-- The busy/locked test of `retryOperation`: models
`err.code === "SQLITE_BUSY"`. -/
def DbErr.isBusy (e : DbErr) : Bool :=
  e.code == "SQLITE_BUSY"

/-- Embeds `retryOperation` of the promise router (and the identical
`performInsert`/`performUpdate`/`performDelete` retry loops of the callback
router).  The wrapped operation is modelled by its outcome at each execution
index; `attempt` is the index of the current execution and `retries` the
remaining budget.  The `retryDelay` wait alters no observable state and is
not modelled. -/
def retryOperation (shouldRetry : Bool) (op : Nat → Except DbErr Nat)
    (attempt retries : Nat) : Except DbErr Nat :=
  match op attempt with
  | .ok v => .ok v
  | .error e =>
    match retries with
    | 0 => .error e
    | r + 1 =>
      if shouldRetry && e.isBusy then
        retryOperation shouldRetry op (attempt + 1) r
      else
        .error e

/-- The number of times `retryOperation` executes the wrapped operation. -/
def retryExecCount (shouldRetry : Bool) (op : Nat → Except DbErr Nat)
    (attempt retries : Nat) : Nat :=
  match op attempt with
  | .ok _ => 1
  | .error e =>
    match retries with
    | 0 => 1
    | r + 1 =>
      if shouldRetry && e.isBusy then
        1 + retryExecCount shouldRetry op (attempt + 1) r
      else
        1

/-- A column declaration of a CREATE TABLE statement. -/
structure Column where
  colName : String
  colType : String
  notNull : Bool
  primaryKey : Bool
  autoincrement : Bool
deriving DecidableEq, Repr

/-- The column list of the repository's
`CREATE TABLE IF NOT EXISTS items (id INTEGER PRIMARY KEY AUTOINCREMENT,
name TEXT NOT NULL, description TEXT)`. -/
def itemsTableColumns : List Column :=
  [⟨"id", "INTEGER", false, true, true⟩,
   ⟨"name", "TEXT", true, false, false⟩,
   ⟨"description", "TEXT", false, false, false⟩]

/-- A database file's table catalogue: table names with their schemas. -/
structure DbFile where
  tables : List (String × List Column)
deriving DecidableEq, Repr

/-- SQL `CREATE TABLE IF NOT EXISTS`: a no-op when a table of that name
exists, otherwise the table is added to the catalogue. -/
def createTableIfNotExists (f : DbFile) (nm : String) (cols : List Column) :
    DbFile :=
  if f.tables.any fun t => t.fst == nm then f
  else ⟨f.tables ++ [(nm, cols)]⟩

/-- The schema-ensuring step of `createDatabase` in `src/database.js`: the
pragmas leave the catalogue untouched, then the `items` table is created if
absent. -/
def ensureItemsTable (f : DbFile) : DbFile :=
  createTableIfNotExists f "items" itemsTableColumns

/-! Helper lemmas about the embedded SQL statements. -/

/-- The row an UPDATE leaves at position `it` has the same id-match status as
`it` itself: the statement never changes `id`. -/
theorem updRowIdPred (id : Nat) (n : String) (d : Option String) (it : Item) :
    ((if it.id == id then (⟨it.id, n, d⟩ : Item) else it).id == id)
      = (it.id == id) := by
  by_cases h : (it.id == id) = true <;> simp [h]

/-- After an UPDATE of `id`, a SELECT of `id` finds nothing exactly when the
UPDATE reported zero affected rows. -/
theorem selectById_updateById_none (db : Db) (id : Nat) (n : String)
    (d : Option String) :
    (selectById (updateById db id n d).fst id = none)
      ↔ (updateById db id n d).snd = 0 := by
  simp only [selectById, updateById, List.find?_map, Option.map_eq_none',
    List.find?_eq_none, List.countP_eq_zero, Function.comp]
  constructor
  · intro h a ha
    have h2 := h a ha
    rwa [updRowIdPred] at h2
  · intro h a ha
    have h2 := h a ha
    rwa [updRowIdPred]

/-- After a DELETE of `id`, a SELECT of `id` never finds a row. -/
theorem selectById_deleteById_none (db : Db) (id : Nat) :
    selectById (deleteById db id).fst id = none := by
  simp only [selectById, deleteById]
  rw [List.find?_eq_none]
  intro x hx
  have hxf := (List.mem_filter.mp hx).2
  simp only [bne_iff_ne, ne_eq] at hxf
  simp [hxf]

/-- The affected-rows count of a mutation predicated on `id` is zero exactly
when no stored row has that id. -/
theorem countP_id_eq_zero (db : Db) (id : Nat) :
    ((db.items.countP fun it => it.id == id) = 0)
      ↔ (db.items.any fun it => it.id == id) = false := by
  rw [List.countP_eq_zero, List.any_eq_false]

/-- Unfolding of the max-id fold step at an empty accumulator. -/
theorem pickMaxId_none (it : Item) : pickMaxId none it = some it := rfl

/-- Unfolding of the max-id fold step at a nonempty accumulator. -/
theorem pickMaxId_some (a it : Item) :
    pickMaxId (some a) it = if a.id < it.id then some it else some a := rfl

/-- A nonempty result of the max-id fold comes from the list or from the
starting accumulator. -/
theorem foldl_pickMaxId_mem :
    ∀ (xs : List Item) (acc : Option Item) (a : Item),
      xs.foldl pickMaxId acc = some a → a ∈ xs ∨ acc = some a := by
  intro xs
  induction xs with
  | nil =>
    intro acc a h
    right
    exact h
  | cons x xs ih =>
    intro acc a h
    rcases ih (pickMaxId acc x) a h with hmem | hacc
    · exact Or.inl (List.mem_cons_of_mem _ hmem)
    · cases acc with
      | none =>
        left
        cases hacc
        exact List.mem_cons_self _ _
      | some b =>
        rw [pickMaxId_some] at hacc
        by_cases hlt : b.id < x.id
        · rw [if_pos hlt] at hacc
          left
          cases hacc
          exact List.mem_cons_self _ _
        · rw [if_neg hlt] at hacc
          exact Or.inr hacc

/-- Appending a row whose id dominates the whole list makes the max-id fold
(ORDER BY id DESC LIMIT 1) return exactly that row. -/
theorem foldl_pickMaxId_append (xs : List Item) (y : Item)
    (h : ∀ x ∈ xs, x.id < y.id) :
    (xs ++ [y]).foldl pickMaxId none = some y := by
  rw [List.foldl_append]
  cases hfold : xs.foldl pickMaxId none with
  | none => rfl
  | some a =>
    have ha : a ∈ xs := by
      rcases foldl_pickMaxId_mem xs none a hfold with h1 | h1
      · exact h1
      · cases h1
    show pickMaxId (some a) y = some y
    rw [pickMaxId_some, if_pos (h a ha)]

/-- In a well-formed state, the callback router's fetch-back of
`this.lastID` after an INSERT returns exactly the inserted row. -/
theorem selectById_after_insert (db : Db) (nm : String) (d : Option String)
    (hwf : db.wfb = true) :
    selectById (insertItem db nm d).fst (insertItem db nm d).snd
      = some ⟨db.nextId, nm, d⟩ := by
  simp only [Db.wfb, List.all_eq_true, decide_eq_true_eq] at hwf
  simp only [selectById, insertItem, List.find?_append]
  have h1 : db.items.find? (fun it : Item => it.id == db.nextId) = none := by
    rw [List.find?_eq_none]
    intro x hx
    have := hwf x hx
    simp
    omega
  rw [h1]
  simp

/-- In a well-formed state, the promise router's fetch-back by name and
non-null description after an INSERT returns exactly the inserted row. -/
theorem selectLatest_after_insert (db : Db) (nm s : String)
    (hwf : db.wfb = true) :
    selectLatestByNameDesc (insertItem db nm (some s)).fst nm (some s)
      = some ⟨db.nextId, nm, some s⟩ := by
  simp only [Db.wfb, List.all_eq_true, decide_eq_true_eq] at hwf
  simp only [selectLatestByNameDesc, insertItem, List.filter_append]
  have hnew :
      List.filter (fun it : Item => it.name == nm && sqlEqText it.description (some s))
          [⟨db.nextId, nm, some s⟩]
        = [⟨db.nextId, nm, some s⟩] := by
    simp [sqlEqText]
  rw [hnew]
  apply foldl_pickMaxId_append
  intro x hx
  exact hwf x (List.mem_filter.mp hx).1

/-- With a NULL description binding, the promise router's fetch-back query
matches no row at all. -/
theorem selectLatest_null_desc (db : Db) (nm : String) :
    selectLatestByNameDesc db nm none = none := by
  simp only [selectLatestByNameDesc]
  have hnil :
      db.items.filter (fun it => it.name == nm && sqlEqText it.description none)
        = [] := by
    rw [List.filter_eq_nil_iff]
    intro a _
    simp [sqlEqText]
  rw [hnil]
  rfl

/-- The JS `parseInt(q) || d` parse returns a supplied positive value. -/
theorem parseIntOr_of_pos (n d : Nat) (h : 1 ≤ n) :
    parseIntOr (some n) d = n := by
  cases n with
  | zero => omega
  | succ m => rfl

/-- Characterisation of `Math.ceil(a / b)` for positive `b`: it is the least
number of pages covering `a` items. -/
theorem ceilDivJs_spec (a b : Nat) (hb : 1 ≤ b) :
    a ≤ ceilDivJs a b * b ∧ ceilDivJs a b * b < a + b := by
  have hub : ceilDivJs a b * b ≤ a + b - 1 := Nat.div_mul_le_self _ _
  have hlow : a ≤ ceilDivJs a b * b := by
    by_contra hlt
    push_neg at hlt
    have hstep : (ceilDivJs a b + 1) * b ≤ a + b - 1 := by
      rw [Nat.succ_mul]
      have hgen : ∀ t : Nat, t < a → t + b ≤ a + b - 1 := by
        intro t ht
        omega
      exact hgen _ hlt
    have hle : ceilDivJs a b + 1 ≤ (a + b - 1) / b :=
      (Nat.le_div_iff_mul_le hb).mpr hstep
    exact Nat.not_succ_le_self _ hle
  refine ⟨hlow, ?_⟩
  have hgen : ∀ t : Nat, t ≤ a + b - 1 → t < a + b := by
    intro t ht
    omega
  exact hgen _ hub

/-- The page slice of a List response, in terms of the stored list. -/
theorem respItems_getAll (db : Db) (page limit : Nat) (hp : 1 ≤ page)
    (hl : 1 ≤ limit) :
    respItems (p1_getAllItems db (some page) (some limit)).resp
      = (db.items.drop ((page - 1) * limit)).take limit := by
  simp [p1_getAllItems, listItemsCore, respItems, parseIntOr_of_pos _ _ hp,
    parseIntOr_of_pos _ _ hl, selectPage]

/-- The pagination metadata of a List response, in terms of the stored
list. -/
theorem respPagination_getAll (db : Db) (page limit : Nat) (hp : 1 ≤ page)
    (hl : 1 ≤ limit) :
    respPagination (p1_getAllItems db (some page) (some limit)).resp
      = some ⟨db.items.length, ceilDivJs db.items.length limit, page, limit⟩ := by
  simp [p1_getAllItems, listItemsCore, respPagination, parseIntOr_of_pos _ _ hp,
    parseIntOr_of_pos _ _ hl, countItems]

/-! Helper lemmas about the busy-retry policy. -/

/-- Unfolding of `retryOperation` at a successful execution. -/
theorem retryOperation_ok_eq (sr : Bool) (op : Nat → Except DbErr Nat)
    (attempt retries v : Nat) (h : op attempt = .ok v) :
    retryOperation sr op attempt retries = .ok v := by
  unfold retryOperation
  rw [h]

/-- Unfolding of `retryOperation` at a failure with an exhausted budget. -/
theorem retryOperation_err_zero (sr : Bool) (op : Nat → Except DbErr Nat)
    (attempt : Nat) (e : DbErr) (h : op attempt = .error e) :
    retryOperation sr op attempt 0 = .error e := by
  unfold retryOperation
  rw [h]

/-- Unfolding of `retryOperation` at a failure with remaining budget. -/
theorem retryOperation_err_succ (sr : Bool) (op : Nat → Except DbErr Nat)
    (attempt r : Nat) (e : DbErr) (h : op attempt = .error e) :
    retryOperation sr op attempt (r + 1)
      = if sr && e.isBusy then retryOperation sr op (attempt + 1) r
        else .error e := by
  conv_lhs => rw [retryOperation, h]

/-- Unfolding of `retryExecCount` at a successful execution. -/
theorem retryExecCount_ok_eq (sr : Bool) (op : Nat → Except DbErr Nat)
    (attempt retries v : Nat) (h : op attempt = .ok v) :
    retryExecCount sr op attempt retries = 1 := by
  unfold retryExecCount
  rw [h]

/-- Unfolding of `retryExecCount` at a failure with an exhausted budget. -/
theorem retryExecCount_err_zero (sr : Bool) (op : Nat → Except DbErr Nat)
    (attempt : Nat) (e : DbErr) (h : op attempt = .error e) :
    retryExecCount sr op attempt 0 = 1 := by
  unfold retryExecCount
  rw [h]

/-- Unfolding of `retryExecCount` at a failure with remaining budget. -/
theorem retryExecCount_err_succ (sr : Bool) (op : Nat → Except DbErr Nat)
    (attempt r : Nat) (e : DbErr) (h : op attempt = .error e) :
    retryExecCount sr op attempt (r + 1)
      = if sr && e.isBusy then 1 + retryExecCount sr op (attempt + 1) r
        else 1 := by
  conv_lhs => rw [retryExecCount, h]

/-- The wrapped operation is executed at least once. -/
theorem retryExecCount_pos (sr : Bool) (op : Nat → Except DbErr Nat)
    (retries attempt : Nat) : 1 ≤ retryExecCount sr op attempt retries := by
  cases h : op attempt with
  | ok v => rw [retryExecCount_ok_eq sr op attempt retries v h]
  | error e =>
    cases retries with
    | zero => rw [retryExecCount_err_zero sr op attempt e h]
    | succ r =>
      rw [retryExecCount_err_succ sr op attempt r e h]
      by_cases hc : (sr && e.isBusy) = true
      · rw [if_pos hc]
        omega
      · rw [if_neg hc]

/-- The wrapped operation is executed at most once more than the remaining
budget. -/
theorem retryExecCount_le (sr : Bool) (op : Nat → Except DbErr Nat) :
    ∀ retries attempt, retryExecCount sr op attempt retries ≤ 1 + retries := by
  intro retries
  induction retries with
  | zero =>
    intro attempt
    cases h : op attempt with
    | ok v => rw [retryExecCount_ok_eq sr op attempt 0 v h]
    | error e => rw [retryExecCount_err_zero sr op attempt e h]
  | succ r ih =>
    intro attempt
    cases h : op attempt with
    | ok v => rw [retryExecCount_ok_eq sr op attempt (r + 1) v h]; omega
    | error e =>
      rw [retryExecCount_err_succ sr op attempt r e h]
      by_cases hc : (sr && e.isBusy) = true
      · rw [if_pos hc]
        have := ih (attempt + 1)
        omega
      · rw [if_neg hc]
        omega

/-- The operation is re-executed exactly when the first execution hit the
busy condition, retrying is enabled, and budget remains. -/
theorem retryExecCount_retry_iff (sr : Bool) (op : Nat → Except DbErr Nat)
    (attempt retries : Nat) :
    2 ≤ retryExecCount sr op attempt retries ↔
      (sr = true ∧ (∃ e, op attempt = .error e ∧ e.isBusy = true)
        ∧ 0 < retries) := by
  cases h : op attempt with
  | ok v =>
    rw [retryExecCount_ok_eq sr op attempt retries v h]
    simp
  | error e =>
    cases retries with
    | zero =>
      rw [retryExecCount_err_zero sr op attempt e h]
      simp
    | succ r =>
      rw [retryExecCount_err_succ sr op attempt r e h]
      by_cases hc : (sr && e.isBusy) = true
      · rw [if_pos hc]
        rw [Bool.and_eq_true] at hc
        have hpos := retryExecCount_pos sr op r (attempt + 1)
        constructor
        · intro _
          exact ⟨hc.1, ⟨e, rfl, hc.2⟩, Nat.succ_pos r⟩
        · intro _
          omega
      · rw [if_neg hc]
        constructor
        · intro habs
          omega
        · rintro ⟨hsr, ⟨e2, he2, hb2⟩, -⟩
          rw [Except.error.injEq] at he2
          subst he2
          rw [hsr, hb2] at hc
          simp at hc

/-- A failure that is not retried (not busy, or retrying disabled)
propagates to the caller unchanged. -/
theorem retryOperation_error_prop (sr : Bool) (op : Nat → Except DbErr Nat)
    (attempt retries : Nat) (e : DbErr) (he : op attempt = .error e)
    (h : sr = false ∨ e.isBusy = false) :
    retryOperation sr op attempt retries = .error e := by
  cases retries with
  | zero => exact retryOperation_err_zero sr op attempt e he
  | succ r =>
    rw [retryOperation_err_succ sr op attempt r e he]
    rcases h with h | h <;> rw [h] <;> simp

/-- If the first `j` executions hit the busy condition and execution `j`
succeeds, within budget, the whole wrapped call succeeds. -/
theorem retryOperation_ok (op : Nat → Except DbErr Nat) :
    ∀ (j retries attempt v : Nat), j ≤ retries →
      (∀ k, k < j → ∃ e, op (attempt + k) = .error e ∧ e.isBusy = true) →
      op (attempt + j) = .ok v →
      retryOperation true op attempt retries = .ok v := by
  intro j
  induction j with
  | zero =>
    intro retries attempt v _ _ hok
    rw [Nat.add_zero] at hok
    exact retryOperation_ok_eq true op attempt retries v hok
  | succ j ih =>
    intro retries attempt v hle hbusy hok
    obtain ⟨e, he, hb⟩ := hbusy 0 (Nat.succ_pos j)
    rw [Nat.add_zero] at he
    cases retries with
    | zero => omega
    | succ r =>
      rw [retryOperation_err_succ true op attempt r e he, hb]
      simp only [Bool.and_true, if_true]
      refine ih r (attempt + 1) v (by omega) ?_ ?_
      · intro k hk
        have hk2 := hbusy (k + 1) (by omega)
        rwa [show attempt + (k + 1) = attempt + 1 + k by omega] at hk2
      · rwa [show attempt + 1 + j = attempt + (j + 1) by omega]

/-- If every execution within the budget hits the busy condition, the
wrapped call surfaces a busy storage error. -/
theorem retryOperation_exhaust (op : Nat → Except DbErr Nat) :
    ∀ (retries attempt : Nat),
      (∀ k, k ≤ retries → ∃ e, op (attempt + k) = .error e ∧ e.isBusy = true) →
      ∃ e, retryOperation true op attempt retries = .error e
        ∧ e.isBusy = true := by
  intro retries
  induction retries with
  | zero =>
    intro attempt h
    obtain ⟨e, he, hb⟩ := h 0 (Nat.le_refl 0)
    rw [Nat.add_zero] at he
    exact ⟨e, retryOperation_err_zero true op attempt e he, hb⟩
  | succ r ih =>
    intro attempt h
    obtain ⟨e, he, hb⟩ := h 0 (by omega)
    rw [Nat.add_zero] at he
    rw [retryOperation_err_succ true op attempt r e he, hb]
    simp only [Bool.and_true, if_true]
    refine ih (attempt + 1) ?_
    intro k hk
    have hk2 := h (k + 1) (by omega)
    rwa [show attempt + (k + 1) = attempt + 1 + k by omega] at hk2

/-! The claims. -/

/-- C1: refuted by the promise router (code bug): a Delete whose id matches
no stored item — id 1 against the empty store — is answered with the success
acknowledgment 200 `message: Item deleted` instead of the 404 NotFound the
claim requires, because the router probes existence only after the DELETE;
the callback router answers 404 as claimed. -/
theorem deleteAbsentIdClaim :
    (p1_deleteItem ⟨[], 1⟩ 1).resp = ⟨200, .message "Item deleted"⟩
    ∧ (p2_deleteItem ⟨[], 1⟩ 1).resp = ⟨404, .error "Item not found"⟩ :=
  ⟨rfl, rfl⟩

/-- C2: refuted by the promise router at a NULL description (code bug):
Create of name TestItem with a null description answers 200 with an empty
body, because the fetch-back query compares `description = ?` against NULL
and matches no row, while GetById on the assigned id 1 returns the stored
item; the callback router returns the created item as claimed. -/
theorem createNullDescRoundTripClaim :
    (p1_createNewItem ⟨[], 1⟩ (some "TestItem") none).resp = ⟨200, .empty⟩
    ∧ (p1_getItemById (p1_createNewItem ⟨[], 1⟩ (some "TestItem") none).db 1).resp
        = ⟨200, .item ⟨1, "TestItem", none⟩⟩
    ∧ (p2_createNewItem ⟨[], 1⟩ (some "TestItem") none).resp
        = ⟨200, .item ⟨1, "TestItem", none⟩⟩ :=
  ⟨rfl, rfl, rfl⟩

/-- C3 counterexample: at the promise router's Delete of id 1 against the
empty store, the mutating DELETE affects zero rows yet the outcome is not
NotFound, refuting the claimed zero-rows-iff-NotFound criterion for every
Delete operation. -/
theorem notFoundByChangesCex :
    (deleteById ⟨[], 1⟩ 1).snd = 0
    ∧ (p1_deleteItem ⟨[], 1⟩ 1).resp.status ≠ 404 :=
  ⟨rfl, by decide⟩

/-- C3 amended: the callback router's Update and Delete decide NotFound
exactly by the zero-rows-affected count of the single mutating statement —
its Delete issues no other statement, and its Update, when it answers 404,
has issued only the UPDATE; the promise router instead decides by a
post-mutation SELECT probe, which coincides with the rows-affected
criterion for Update but makes its Delete answer 200 regardless of the
affected count. -/
theorem notFoundByChangesAmended (db : Db) (id : Nat) (name : String)
    (desc : Option String) (h : (name == "") = false) :
    ((p2_updateItem db id (some name) desc).resp.status = 404
        ↔ (updateById db id name desc).snd = 0)
    ∧ ((p2_deleteItem db id).resp.status = 404 ↔ (deleteById db id).snd = 0)
    ∧ ((p2_updateItem db id (some name) desc).resp.status = 404 →
        (p2_updateItem db id (some name) desc).ops = [.updateOp id name desc])
    ∧ (p2_deleteItem db id).ops = [.deleteOp id]
    ∧ ((p1_updateItem db id (some name) desc).resp.status = 404
        ↔ (updateById db id name desc).snd = 0)
    ∧ (p1_deleteItem db id).resp.status = 200 := by
  have hf : falsyName (some name) = false := h
  refine ⟨?_, ?_, ?_, ?_, ?_, ?_⟩
  · simp only [p2_updateItem, hf, Bool.false_eq_true, if_false, Option.getD_some]
    by_cases hz : (updateById db id name desc).snd = 0
    · simp [hz]
    · simp only [hz, beq_iff_eq, if_false]
      cases hsel : selectById (updateById db id name desc).fst id <;> simp [hsel, hz]
  · simp only [p2_deleteItem]
    by_cases hz : (deleteById db id).snd = 0
    · simp [hz]
    · simp [hz]
  · simp only [p2_updateItem, hf, Bool.false_eq_true, if_false, Option.getD_some]
    by_cases hz : (updateById db id name desc).snd = 0
    · simp [hz]
    · simp only [hz, beq_iff_eq, if_false]
      cases hsel : selectById (updateById db id name desc).fst id <;> simp [hsel]
  · simp only [p2_deleteItem]
    by_cases hz : (deleteById db id).snd = 0
    · simp [hz]
    · simp [hz]
  · simp only [p1_updateItem, hf, Bool.false_eq_true, if_false, Option.getD_some]
    cases hsel : selectById (updateById db id name desc).fst id with
    | none =>
      simp only [hsel]
      have := (selectById_updateById_none db id name desc).mp hsel
      simp [this]
    | some row =>
      simp only [hsel]
      constructor
      · intro habs
        simp at habs
      · intro hz
        have := (selectById_updateById_none db id name desc).mpr hz
        rw [hsel] at this
        cases this
  · simp only [p1_deleteItem]
    rw [selectById_deleteById_none db id]

/-- Witness for the amended C3 at a concrete input: updating id 1 in the
empty store, the callback router's 404 outcome coincides with the UPDATE
affecting zero rows. -/
theorem notFoundByChangesAmended_witness :
    (p2_updateItem ⟨[], 1⟩ 1 (some "A") none).resp.status = 404
      ↔ (updateById ⟨[], 1⟩ 1 "A" none).snd = 0 :=
  (notFoundByChangesAmended ⟨[], 1⟩ 1 "A" none rfl).1

/-- C4: the busy-retry policy contract.  The wrapped operation is executed
at least once and at most once more than the remaining budget; it is
re-executed exactly when the execution failed busy, retrying is enabled and
budget remains; a non-busy failure, or any failure with retrying disabled,
propagates unchanged; when the first j executions are busy and execution j
succeeds within the budget, the caller sees the success; when every
execution within the budget is busy, the caller sees a busy storage
error. -/
theorem retryPolicyContract (op : Nat → Except DbErr Nat) (maxRetries : Nat) :
    (∀ sr retries attempt, 1 ≤ retryExecCount sr op attempt retries
        ∧ retryExecCount sr op attempt retries ≤ 1 + retries)
    ∧ (∀ sr retries attempt,
        2 ≤ retryExecCount sr op attempt retries ↔
          (sr = true ∧ (∃ e, op attempt = .error e ∧ e.isBusy = true)
            ∧ 0 < retries))
    ∧ (∀ e, op 0 = .error e → e.isBusy = false →
        retryOperation true op 0 maxRetries = .error e)
    ∧ (∀ e, op 0 = .error e →
        retryOperation false op 0 maxRetries = .error e)
    ∧ (∀ j v, j ≤ maxRetries →
        (∀ k, k < j → ∃ e, op k = .error e ∧ e.isBusy = true) →
        op j = .ok v →
        retryOperation true op 0 maxRetries = .ok v)
    ∧ ((∀ k, k ≤ maxRetries → ∃ e, op k = .error e ∧ e.isBusy = true) →
        ∃ e, retryOperation true op 0 maxRetries = .error e
          ∧ e.isBusy = true) := by
  refine ⟨?_, ?_, ?_, ?_, ?_, ?_⟩
  · intro sr retries attempt
    exact ⟨retryExecCount_pos sr op retries attempt,
      retryExecCount_le sr op retries attempt⟩
  · intro sr retries attempt
    exact retryExecCount_retry_iff sr op attempt retries
  · intro e he hb
    exact retryOperation_error_prop true op 0 maxRetries e he (Or.inr hb)
  · intro e he
    exact retryOperation_error_prop false op 0 maxRetries e he (Or.inl rfl)
  · intro j v hle hbusy hok
    refine retryOperation_ok op j maxRetries 0 v hle ?_ ?_
    · intro k hk
      simpa using hbusy k hk
    · simpa using hok
  · intro hbusy
    refine retryOperation_exhaust op maxRetries 0 ?_
    intro k hk
    simpa using hbusy k hk

/-- Witness for C4: with retrying enabled and budget 3, an operation that is
busy on its first two executions and then succeeds is retried to success. -/
theorem retryPolicyContract_witness :
    retryOperation true
        (fun k => if k < 2 then .error ⟨"SQLITE_BUSY", "database is locked"⟩
          else .ok 42) 0 3 = .ok 42 :=
  (retryPolicyContract _ 3).2.2.2.2.1 2 42 (by omega)
    (fun k hk => ⟨⟨"SQLITE_BUSY", "database is locked"⟩, by simp [hk], rfl⟩)
    rfl

/-- C5: a successful List with page p ≥ 1 and limit L ≥ 1 returns, at each
position k < L of its page, exactly the item stored at insertion-order
position (p-1)*L + k of the table, returns at most L items, and returns
them in ascending-id order whenever the table is in ascending-id order. -/
theorem listPageIsInsertionSlice (db : Db) (page limit : Nat)
    (hp : 1 ≤ page) (hl : 1 ≤ limit)
    (hsorted : db.items.Pairwise fun a b => a.id < b.id) :
    (∀ k, k < limit →
        (respItems (p1_getAllItems db (some page) (some limit)).resp)[k]? =
          db.items[(page - 1) * limit + k]?)
    ∧ (respItems (p1_getAllItems db (some page) (some limit)).resp).length
        ≤ limit
    ∧ (respItems (p1_getAllItems db (some page) (some limit)).resp).Pairwise
        (fun a b => a.id < b.id) := by
  rw [respItems_getAll db page limit hp hl]
  refine ⟨?_, ?_, ?_⟩
  · intro k hk
    rw [List.getElem?_take_of_lt hk, List.getElem?_drop]
  · rw [List.length_take]
    exact Nat.min_le_left _ _
  · exact hsorted.sublist ((List.take_sublist _ _).trans (List.drop_sublist _ _))

/-- Witness for C5: with three stored items, page 2 and limit 2, position 0
of the returned page is the item at insertion-order position 2. -/
theorem listPageIsInsertionSlice_witness :
    (respItems (p1_getAllItems
        ⟨[⟨1, "a", none⟩, ⟨2, "b", none⟩, ⟨3, "c", none⟩], 4⟩
        (some 2) (some 2)).resp)[0]? =
      [⟨1, "a", none⟩, ⟨2, "b", none⟩, (⟨3, "c", none⟩ : Item)][(2 - 1) * 2 + 0]? :=
  (listPageIsInsertionSlice ⟨[⟨1, "a", none⟩, ⟨2, "b", none⟩, ⟨3, "c", none⟩], 4⟩
    2 2 (by decide) (by decide) (by decide)).1 0 (by decide)

/-- C6: for page ≥ 1 and limit ≥ 1, both routers run the same List
computation; the returned slice drops exactly (page-1)*limit rows; the
metadata carries currentPage = page, pageSize = limit and totalItems = the
stored count; and totalPages is the ceiling of totalItems / limit,
characterised as the least page count covering all items. -/
theorem listPaginationMetadata (db : Db) (page limit : Nat)
    (hp : 1 ≤ page) (hl : 1 ≤ limit) :
    respItems (p1_getAllItems db (some page) (some limit)).resp
        = (db.items.drop ((page - 1) * limit)).take limit
    ∧ respPagination (p1_getAllItems db (some page) (some limit)).resp
        = some ⟨db.items.length, ceilDivJs db.items.length limit, page, limit⟩
    ∧ db.items.length ≤ ceilDivJs db.items.length limit * limit
    ∧ ceilDivJs db.items.length limit * limit < db.items.length + limit
    ∧ p2_getAllItems db (some page) (some limit)
        = p1_getAllItems db (some page) (some limit) :=
  ⟨respItems_getAll db page limit hp hl,
    respPagination_getAll db page limit hp hl,
    (ceilDivJs_spec _ _ hl).1, (ceilDivJs_spec _ _ hl).2, rfl⟩

/-- Witness for C6: with five stored items, page 2 and limit 2, the
metadata is totalItems 5, totalPages 3, currentPage 2, pageSize 2. -/
theorem listPaginationMetadata_witness :
    respPagination (p1_getAllItems
        ⟨[⟨1, "a", none⟩, ⟨2, "b", none⟩, ⟨3, "c", none⟩, ⟨4, "d", none⟩,
          ⟨5, "e", none⟩], 6⟩ (some 2) (some 2)).resp
      = some ⟨5, ceilDivJs 5 2, 2, 2⟩ :=
  (listPaginationMetadata
    ⟨[⟨1, "a", none⟩, ⟨2, "b", none⟩, ⟨3, "c", none⟩, ⟨4, "d", none⟩,
      ⟨5, "e", none⟩], 6⟩ 2 2 (by decide) (by decide)).2.1

/-- C7: a Create or Update whose body has a missing/null or empty name is
answered 400 `error: Name is required` by both routers, with no SQL
statement issued and the table state unchanged, whatever the other
fields. -/
theorem emptyNameRejectedBeforeStorage (db : Db) (id : Nat)
    (name desc : Option String) (h : falsyName name = true) :
    p1_createNewItem db name desc = ⟨⟨400, .error "Name is required"⟩, db, []⟩
    ∧ p1_updateItem db id name desc = ⟨⟨400, .error "Name is required"⟩, db, []⟩
    ∧ p2_createNewItem db name desc = ⟨⟨400, .error "Name is required"⟩, db, []⟩
    ∧ p2_updateItem db id name desc
        = ⟨⟨400, .error "Name is required"⟩, db, []⟩ := by
  refine ⟨?_, ?_, ?_, ?_⟩
  · simp [p1_createNewItem, h]
  · simp [p1_updateItem, h]
  · simp [p2_createNewItem, h]
  · simp [p2_updateItem, h]

/-- Witness for C7: a Create with an empty name and a description is
rejected with 400 and leaves the single-item store untouched. -/
theorem emptyNameRejectedBeforeStorage_witness :
    p1_createNewItem ⟨[⟨1, "a", none⟩], 2⟩ (some "") (some "x")
      = ⟨⟨400, .error "Name is required"⟩, ⟨[⟨1, "a", none⟩], 2⟩, []⟩ :=
  (emptyNameRejectedBeforeStorage ⟨[⟨1, "a", none⟩], 2⟩ 1 (some "")
    (some "x") rfl).1

/-- With a valid name, the promise router's Update leaves exactly the state
of the embedded UPDATE statement. -/
theorem p1_update_db (db : Db) (id : Nat) (name : String)
    (desc : Option String) (h : (name == "") = false) :
    (p1_updateItem db id (some name) desc).db
      = (updateById db id name desc).fst := by
  have hf : falsyName (some name) = false := h
  simp only [p1_updateItem, hf, Bool.false_eq_true, if_false, Option.getD_some]
  split <;> rfl

/-- With a valid name, the callback router's Update leaves exactly the state
of the embedded UPDATE statement. -/
theorem p2_update_db (db : Db) (id : Nat) (name : String)
    (desc : Option String) (h : (name == "") = false) :
    (p2_updateItem db id (some name) desc).db
      = (updateById db id name desc).fst := by
  have hf : falsyName (some name) = false := h
  simp only [p2_updateItem, hf, Bool.false_eq_true, if_false, Option.getD_some]
  split
  · rfl
  · split <;> rfl

/-- With a valid name, the promise router's Create leaves exactly the state
of the embedded INSERT statement. -/
theorem p1_create_db (db : Db) (name : String) (desc : Option String)
    (h : (name == "") = false) :
    (p1_createNewItem db (some name) desc).db = (insertItem db name desc).fst := by
  have hf : falsyName (some name) = false := h
  simp only [p1_createNewItem, hf, Bool.false_eq_true, if_false, Option.getD_some]
  split <;> rfl

/-- With a valid name, the callback router's Create leaves exactly the state
of the embedded INSERT statement. -/
theorem p2_create_db (db : Db) (name : String) (desc : Option String)
    (h : (name == "") = false) :
    (p2_createNewItem db (some name) desc).db = (insertItem db name desc).fst := by
  have hf : falsyName (some name) = false := h
  simp only [p2_createNewItem, hf, Bool.false_eq_true, if_false, Option.getD_some]
  split <;> rfl

/-- The promise router's Delete leaves exactly the state of the embedded
DELETE statement. -/
theorem p1_delete_db (db : Db) (id : Nat) :
    (p1_deleteItem db id).db = (deleteById db id).fst := by
  simp only [p1_deleteItem]
  split <;> rfl

/-- The callback router's Delete leaves exactly the state of the embedded
DELETE statement. -/
theorem p2_delete_db (db : Db) (id : Nat) :
    (p2_deleteItem db id).db = (deleteById db id).fst := by
  simp only [p2_deleteItem]
  split <;> rfl

/-- C8: an Update with a valid name rewrites exactly the name and
description of the rows matching the id, keeps every id, keeps the
AUTOINCREMENT counter, leaves every other row in place (in both routers,
which leave identical states), and answers 404 when no stored row matches
the id. -/
theorem updateFrameAndNotFound (db : Db) (id : Nat) (name : String)
    (desc : Option String) (h : (name == "") = false) :
    ((p2_updateItem db id (some name) desc).db.items
        = db.items.map fun it => if it.id == id then ⟨it.id, name, desc⟩ else it)
    ∧ (p2_updateItem db id (some name) desc).db.nextId = db.nextId
    ∧ (p1_updateItem db id (some name) desc).db
        = (p2_updateItem db id (some name) desc).db
    ∧ (∀ it ∈ db.items, (it.id == id) = false →
        it ∈ (p2_updateItem db id (some name) desc).db.items)
    ∧ ((db.items.any fun it => it.id == id) = false →
        (p2_updateItem db id (some name) desc).resp
            = ⟨404, .error "Item not found"⟩
          ∧ (p1_updateItem db id (some name) desc).resp
            = ⟨404, .error "Item not found"⟩) := by
  have hf : falsyName (some name) = false := h
  refine ⟨?_, ?_, ?_, ?_, ?_⟩
  · rw [p2_update_db db id name desc h]
    rfl
  · rw [p2_update_db db id name desc h]
    rfl
  · rw [p1_update_db db id name desc h, p2_update_db db id name desc h]
  · intro it hmem hpred
    rw [p2_update_db db id name desc h]
    exact List.mem_map.mpr ⟨it, hmem, by simp [hpred]⟩
  · intro hany
    have hz : (updateById db id name desc).snd = 0 :=
      (countP_id_eq_zero db id).mpr hany
    constructor
    · simp only [p2_updateItem, hf, Bool.false_eq_true, if_false,
        Option.getD_some]
      simp [hz]
    · have hsel := (selectById_updateById_none db id name desc).mpr hz
      simp only [p1_updateItem, hf, Bool.false_eq_true, if_false,
        Option.getD_some]
      rw [hsel]

/-- Witness for C8: updating id 1 of a two-item store keeps the counter. -/
theorem updateFrameAndNotFound_witness :
    (p2_updateItem ⟨[⟨1, "a", some "x"⟩, ⟨2, "b", none⟩], 3⟩ 1
        (some "B") none).db.nextId = 3 :=
  (updateFrameAndNotFound ⟨[⟨1, "a", some "x"⟩, ⟨2, "b", none⟩], 3⟩ 1 "B"
    none rfl).2.1

/-- C9: the schema-ensuring step is idempotent — a second run changes
nothing — and leaves exactly one `items` table; from an empty file it
creates the table with the declared columns. -/
theorem schemaCreationIdempotent (f : DbFile)
    (h : (f.tables.countP fun t => t.fst == "items") ≤ 1) :
    ensureItemsTable (ensureItemsTable f) = ensureItemsTable f
    ∧ ((ensureItemsTable f).tables.countP fun t => t.fst == "items") = 1
    ∧ (f.tables = [] →
        ensureItemsTable f = ⟨[("items", itemsTableColumns)]⟩) := by
  by_cases hex : (f.tables.any fun t => t.fst == "items") = true
  · have he : ensureItemsTable f = f := by
      simp [ensureItemsTable, createTableIfNotExists, hex]
    refine ⟨by rw [he, he], ?_, ?_⟩
    · rw [he]
      obtain ⟨x, hx, hpx⟩ := List.any_eq_true.mp hex
      have hpos : 0 < f.tables.countP fun t => t.fst == "items" :=
        List.countP_pos_iff.mpr ⟨x, hx, hpx⟩
      omega
    · intro hnil
      rw [hnil] at hex
      simp at hex
  · simp only [Bool.not_eq_true] at hex
    have hzero : (f.tables.countP fun t => t.fst == "items") = 0 :=
      List.countP_eq_zero.mpr (List.any_eq_false.mp hex)
    have he : ensureItemsTable f = ⟨f.tables ++ [("items", itemsTableColumns)]⟩ := by
      simp [ensureItemsTable, createTableIfNotExists, hex]
    refine ⟨?_, ?_, ?_⟩
    · rw [he]
      have hex2 : ((f.tables ++ [("items", itemsTableColumns)]).any
          fun t => t.fst == "items") = true := by
        simp
      simp [ensureItemsTable, createTableIfNotExists, hex2]
    · rw [he]
      simp [List.countP_append, hzero, List.countP_cons]
    · intro hnil
      rw [he, hnil]
      rfl

/-- Witness for C9: on a fresh file the second run is a no-op. -/
theorem schemaCreationIdempotent_witness :
    ensureItemsTable (ensureItemsTable ⟨[]⟩) = ensureItemsTable ⟨[]⟩ :=
  (schemaCreationIdempotent ⟨[]⟩ (by decide)).1

/-- C10 counterexample: on the Delete of id 1 against the empty store the
promise router answers 200 success while the callback router answers 404,
so the two routers are not behaviorally equivalent as claimed. -/
theorem routersNotEquivalentCex :
    (promiseStep ⟨[], 1⟩ (.remove 1)).resp
      ≠ (callbackStep ⟨[], 1⟩ (.remove 1)).resp := by
  decide

/-- C10 amended: over any well-formed store state and any single request,
the two routers leave identical store states; and whenever the request is
neither a Delete of an unmatched id nor a Create with a valid name and a
NULL description, they also produce identical responses. -/
theorem routersEquivalentOffDivergent (db : Db) (r : Request)
    (hwf : db.wfb = true) :
    (promiseStep db r).db = (callbackStep db r).db
    ∧ (divergentReq db r = false →
        (promiseStep db r).resp = (callbackStep db r).resp) := by
  cases r with
  | list p l => exact ⟨rfl, fun _ => rfl⟩
  | getOne i => exact ⟨rfl, fun _ => rfl⟩
  | create n d =>
    cases n with
    | none => exact ⟨rfl, fun _ => rfl⟩
    | some nm =>
      by_cases hnm : (nm == "") = true
      · have hf : falsyName (some nm) = true := hnm
        refine ⟨?_, fun _ => ?_⟩
        · show (p1_createNewItem db (some nm) d).db
            = (p2_createNewItem db (some nm) d).db
          simp [p1_createNewItem, p2_createNewItem, hf]
        · show (p1_createNewItem db (some nm) d).resp
            = (p2_createNewItem db (some nm) d).resp
          simp [p1_createNewItem, p2_createNewItem, hf]
      · have hnm2 : (nm == "") = false := Bool.eq_false_iff.mpr hnm
        refine ⟨?_, ?_⟩
        · show (p1_createNewItem db (some nm) d).db
            = (p2_createNewItem db (some nm) d).db
          rw [p1_create_db db nm d hnm2, p2_create_db db nm d hnm2]
        · intro hdiv
          cases d with
          | none =>
            exfalso
            simp [divergentReq, falsyName, hnm2] at hdiv
          | some s =>
            show (p1_createNewItem db (some nm) (some s)).resp
              = (p2_createNewItem db (some nm) (some s)).resp
            have hf : falsyName (some nm) = false := hnm2
            simp only [p1_createNewItem, p2_createNewItem, hf,
              Bool.false_eq_true, if_false, Option.getD_some]
            rw [selectLatest_after_insert db nm s hwf,
              selectById_after_insert db nm (some s) hwf]
  | update i n d =>
    cases n with
    | none => exact ⟨rfl, fun _ => rfl⟩
    | some nm =>
      by_cases hnm : (nm == "") = true
      · have hf : falsyName (some nm) = true := hnm
        refine ⟨?_, fun _ => ?_⟩
        · show (p1_updateItem db i (some nm) d).db
            = (p2_updateItem db i (some nm) d).db
          simp [p1_updateItem, p2_updateItem, hf]
        · show (p1_updateItem db i (some nm) d).resp
            = (p2_updateItem db i (some nm) d).resp
          simp [p1_updateItem, p2_updateItem, hf]
      · have hnm2 : (nm == "") = false := Bool.eq_false_iff.mpr hnm
        have hf : falsyName (some nm) = false := hnm2
        refine ⟨?_, fun _ => ?_⟩
        · show (p1_updateItem db i (some nm) d).db
            = (p2_updateItem db i (some nm) d).db
          rw [p1_update_db db i nm d hnm2, p2_update_db db i nm d hnm2]
        · show (p1_updateItem db i (some nm) d).resp
            = (p2_updateItem db i (some nm) d).resp
          simp only [p1_updateItem, p2_updateItem, hf, Bool.false_eq_true,
            if_false, Option.getD_some]
          by_cases hz : (updateById db i nm d).snd = 0
          · have hsel := (selectById_updateById_none db i nm d).mpr hz
            rw [hsel]
            simp [hz]
          · cases hsel : selectById (updateById db i nm d).fst i with
            | none =>
              exact absurd ((selectById_updateById_none db i nm d).mp hsel) hz
            | some row =>
              simp [hsel, hz]
  | remove i =>
    refine ⟨?_, ?_⟩
    · show (p1_deleteItem db i).db = (p2_deleteItem db i).db
      rw [p1_delete_db db i, p2_delete_db db i]
    · intro hdiv
      have hany : (db.items.any fun it => it.id == i) = true := by
        simpa [divergentReq] using hdiv
      have hz : (deleteById db i).snd ≠ 0 := by
        intro h0
        have h1 : (db.items.countP fun it => it.id == i) = 0 := h0
        rw [countP_id_eq_zero db i] at h1
        rw [h1] at hany
        cases hany
      show (p1_deleteItem db i).resp = (p2_deleteItem db i).resp
      simp only [p1_deleteItem, p2_deleteItem]
      rw [selectById_deleteById_none db i]
      simp [hz]

/-- Witness for the amended C10 at a concrete input: a valid Update of
id 1 in a one-item store draws the same response from both routers. -/
theorem routersEquivalentOffDivergent_witness :
    (promiseStep ⟨[⟨1, "a", some "x"⟩], 2⟩ (.update 1 (some "b") (some "y"))).resp
      = (callbackStep ⟨[⟨1, "a", some "x"⟩], 2⟩
          (.update 1 (some "b") (some "y"))).resp :=
  (routersEquivalentOffDivergent ⟨[⟨1, "a", some "x"⟩], 2⟩
    (.update 1 (some "b") (some "y")) (by decide)).2 (by decide)

end K6Sqlite
